import Mathlib

/-!
Shallow embedding of the chatroom server core (`src/server.js`) and proofs
about its claims.  JavaScript `Map` objects and plain objects used as
dictionaries are modelled as association lists that preserve insertion
order; `Map.set` / property assignment replaces an existing key in place
and appends a fresh key at the end, matching JS iteration order.
Timestamps (`Date.now()`, `new Date()`) are milliseconds as naturals.
Socket ids are naturals.  Truthiness of strings ("" falsy) and of numbers
(0 falsy) is modelled explicitly at each use site.
-/

set_option maxRecDepth 4000

namespace ChatServer

/-- Ordered association-list lookup (first binding wins, as in JS `Map.get`). -/
def lookupA {κ α : Type} [DecidableEq κ] : List (κ × α) → κ → Option α
  | [], _ => none
  | (k', v) :: rest, k => if k' = k then some v else lookupA rest k

/-- `Map.set` / `obj[k] = v`: replace the existing binding in place, else append. -/
def setA {κ α : Type} [DecidableEq κ] : List (κ × α) → κ → α → List (κ × α)
  | [], k, v => [(k, v)]
  | (k', v') :: rest, k, v =>
    if k' = k then (k, v) :: rest else (k', v') :: setA rest k v

/-- `Map.delete` / `delete obj[k]`: remove the binding for `k`, if any. -/
def eraseA {κ α : Type} [DecidableEq κ] : List (κ × α) → κ → List (κ × α)
  | [], _ => []
  | (k', v') :: rest, k =>
    if k' = k then rest else (k', v') :: eraseA rest k

/-- JS `map.forEach((v,k) => if p then acc = (k,v))`: the LAST matching binding wins. -/
def lastMatch {κ α : Type} (l : List (κ × α)) (p : κ × α → Bool) : Option (κ × α) :=
  l.foldl (fun acc q => if p q then some q else acc) none

/-- JS `array.slice(-n)`: the final `n` elements (all of them when shorter). -/
def takeLast {α : Type} (n : Nat) (l : List α) : List α :=
  l.drop (l.length - n)

/-- JS `String.prototype.toLowerCase`, character-wise. -/
def toLowerStr (s : String) : String := String.mk (s.data.map Char.toLower)

/-- JS `String.prototype.trim`: strip whitespace from both ends. -/
def jsTrim (s : String) : String :=
  String.mk
    (((s.data.dropWhile Char.isWhitespace).reverse.dropWhile Char.isWhitespace).reverse)

/-- JS `str.substring(0, n)`: the first `n` characters. -/
def jsTake (s : String) (n : Nat) : String := String.mk (s.data.take n)

/-- The three global replaces of src/server.js:1507-1510
(`<` → `&lt;`, `>` → `&gt;`, `"` → `&quot;`); the replacement texts contain
no further matches, so one character-wise pass is equivalent. -/
def escapeHtml (s : String) : String :=
  String.mk ((s.data.map (fun c =>
    if c = '<' then "&lt;".data
    else if c = '>' then "&gt;".data
    else if c = '"' then "&quot;".data
    else [c])).flatten)

/- ### Data model (src/server.js lines 73-128) -/

/-- One entry of `connectedUsers` (socketId -> userData), src/server.js:1318-1327.
Only the fields the verified claims touch are carried. -/
structure UserInfo where
  id : Nat
  username : String
  avatar : String
  deriving Repr, DecidableEq

/-- A chat-history entry.  User messages (src/server.js:1481-1492) carry
`username`/`content`/`channel`; synthetic system messages
(`{type:'system', message, id}`) are modelled with `mtype = "system"`,
the text in `content` and empty `username`/`channel`. -/
structure Message where
  id : Nat
  mtype : String
  username : String
  content : String
  channel : String
  deriving Repr, DecidableEq

/-- One entry of `bannedUsers` (src/server.js:116-117, created at 845-851).
`expiresAt = none` models the JS `null`; the read path compares
`new Date(ban.expiresAt) < now`, and `new Date(null)` is the epoch,
so reads use `expiresAt.getD 0`. -/
structure BanEntry where
  username : String
  bannedAt : Nat
  expiresAt : Option Nat
  permanent : Bool
  deriving Repr, DecidableEq

/-- `serverConfig` (src/server.js:109-114). -/
structure ServerConfig where
  isPrivate : Bool
  accessCode : String
  slowMode : Nat
  globalMute : Bool
  deriving Repr, DecidableEq

/-- One entry of `typingUsers` (src/server.js:1608-1612). -/
structure TypingInfo where
  username : String
  channel : String
  timestamp : Nat
  deriving Repr, DecidableEq

/-- A poll (src/server.js:1769-1776); an option is its text plus vote count. -/
structure Poll where
  question : String
  options : List (String × Nat)
  channel : String
  creator : String
  deriving Repr, DecidableEq

/-- One player binding of a game session (src/server.js:2060-2063). -/
structure GamePlayer where
  username : String
  socketId : Nat
  deriving Repr, DecidableEq

/-- Variant board state produced by `initGameState` (src/server.js:2180-2189). -/
inductive GState where
  | tictactoe (board : List String)
  | connect4 (board : List (List String))
  | emptyState
  deriving Repr, DecidableEq

/-- A `global.activeGames` entry (src/server.js:2057-2067).
`currentTurn` is an `Int` because the terminal sentinel is `-1`. -/
structure Game where
  gtype : String
  players : List GamePlayer
  state : GState
  currentTurn : Int
  deriving Repr, DecidableEq

/-- `messageReactions`: messageId -> emoji -> reactor usernames (src/server.js:99). -/
abbrev Reactions := List (Nat × List (String × List String))

/-- The mutable server state owned by the core: the module-level maps of
src/server.js:73-128 that the verified claims read or write
(`userProfiles`, `userStatuses`, pins, DMs and counters are untouched by
the claims and omitted).  `msgCtr` is the `messageId` counter. -/
structure ServerState where
  connectedUsers : List (Nat × UserInfo)
  chatHistory : List Message
  channelHistories : List (String × List Message)
  messageReactions : Reactions
  adminUsersList : List String
  typingUsers : List (Nat × TypingInfo)
  bannedUsers : List (String × BanEntry)
  lastMessageTime : List (Nat × Nat)
  config : ServerConfig
  polls : List (String × Poll)
  pollVotes : List (String × List (String × Nat))
  activeGames : List (String × Game)
  msgCtr : Nat
  deriving Repr, DecidableEq

/-- `MAX_HISTORY` (src/server.js:76). -/
def MAX_HISTORY : Nat := 500

/-- `MAX_CHANNEL_HISTORY` (src/server.js:2308). -/
def MAX_CHANNEL_HISTORY : Nat := 200

/-- `AVAILABLE_CHANNELS` (src/server.js:88). -/
def AVAILABLE_CHANNELS : List String :=
  ["général", "présentation", "jeux", "musique", "films", "random", "aide"]

/-- Default `ADMIN_PASSWORD` (src/server.js:789). -/
def adminPassword : String := "IndieGabVR2024"

/-- A synthetic system message (`{type:'system', message, timestamp, id}`). -/
def mkSystemMessage (id : Nat) (text : String) : Message :=
  { id := id, mtype := "system", username := "", content := text, channel := "" }

/- ### History stores (src/server.js:2276-2312, 1411-1420) -/

/-- `addToHistory` (src/server.js:2277-2298): push onto the unified legacy log,
trim to the last `MAX_HISTORY` entries, and garbage-collect reaction entries
whose message id no longer appears in the retained log. -/
def addToHistory (hist : List Message) (reactions : Reactions) (m : Message) :
    List Message × Reactions :=
  let hist' := hist ++ [m]
  if hist'.length > MAX_HISTORY then
    let trimmed := takeLast MAX_HISTORY hist'
    let validIds := trimmed.map (·.id)
    (trimmed, reactions.filter (fun e => validIds.contains e.1))
  else
    (hist', reactions)

/-- `addToChannelHistory` (src/server.js:2301-2312): push onto the channel's
log (created empty on demand) and trim to the last `MAX_CHANNEL_HISTORY`. -/
def addToChannelHistory (chs : List (String × List Message)) (m : Message)
    (channel : String) : List (String × List Message) :=
  let log := (lookupA chs channel).getD []
  let log' := log ++ [m]
  let log'' := if log'.length > MAX_CHANNEL_HISTORY
    then takeLast MAX_CHANNEL_HISTORY log' else log'
  setA chs channel log''

/-- The `gemini_response` handler (src/server.js:1390-1434): a connected
requester appends a bot message to the channel's log directly, trimming that
log to the last 500 entries (not `MAX_CHANNEL_HISTORY`). -/
def gemini_response (s : ServerState) (sid : Nat) (channel? : Option String)
    (content : String) : ServerState :=
  match lookupA s.connectedUsers sid with
  | none => s
  | some _ =>
    let channel := channel?.getD "général"
    let botMsg : Message :=
      { id := s.msgCtr, mtype := "user", username := "🤖 GeminiBot",
        content := content, channel := channel }
    let log := (lookupA s.channelHistories channel).getD []
    let log' := log ++ [botMsg]
    let log'' := if log'.length > 500 then takeLast 500 log' else log'
    { s with channelHistories := setA s.channelHistories channel log'',
             msgCtr := s.msgCtr + 1 }

/- ### Session registry: join / rename (src/server.js:1246-1387, 708-784, 880-913) -/

inductive JoinResult where
  | invalidName
  | bannedRejected
  | accessDenied
  | usernameTaken
  | joined
  deriving Repr, DecidableEq

/-- The tail of `user_join` after the ban gate (src/server.js:1287-1376):
private-server access check, case-insensitive uniqueness check, then
registration plus the broadcast "user joined" system message. -/
def joinChecks (s : ServerState) (sid : Nat) (clean avatar accessCode : String) :
    ServerState × JoinResult :=
  if s.config.isPrivate && s.config.accessCode != "" && accessCode != s.config.accessCode then
    (s, .accessDenied)
  else if (s.connectedUsers.find?
      (fun p => toLowerStr p.2.username == toLowerStr clean)).isSome then
    (s, .usernameTaken)
  else
    let userInfo : UserInfo := { id := sid, username := clean, avatar := avatar }
    let s1 := { s with connectedUsers := setA s.connectedUsers sid userInfo }
    let joinMsg := mkSystemMessage s1.msgCtr (clean ++ " a rejoint le chat")
    let hr := addToHistory s1.chatHistory s1.messageReactions joinMsg
    ({ s1 with chatHistory := hr.1, messageReactions := hr.2,
               msgCtr := s1.msgCtr + 1 }, .joined)

/-- The `user_join` handler (src/server.js:1246-1387): validate the name
(trim, 20-char cap), reject a banned name (lazily deleting an expired
non-permanent entry), enforce private-mode access, reject a name already
held by a live session (case-insensitive), then register the session. -/
def user_join (s : ServerState) (sid : Nat) (username avatar accessCode : String)
    (now : Nat) : ServerState × JoinResult :=
  if (jsTrim username).length = 0 then (s, .invalidName)
  else
    let clean := jsTake (jsTrim username) 20
    let banId := toLowerStr clean
    match lookupA s.bannedUsers banId with
    | some ban =>
      if !ban.permanent && (ban.expiresAt.getD 0) < now then
        joinChecks { s with bannedUsers := eraseA s.bannedUsers banId }
          sid clean avatar accessCode
      else
        (s, .bannedRejected)
    | none => joinChecks s sid clean avatar accessCode

inductive RenameResult where
  | notConnected
  | invalidName
  | taken
  | renamed
  deriving Repr, DecidableEq

/-- The `change_username` handler (src/server.js:708-784): trim and cap the
new name, reject when empty or already held by a *different* live session
(case-insensitive, compared on the stored `id` field), else update the
session in place and broadcast a system message.  (The status/profile
transfers touch maps outside the modelled state.) -/
def change_username (s : ServerState) (sid : Nat) (newUsername : Option String) :
    ServerState × RenameResult :=
  match lookupA s.connectedUsers sid with
  | none => (s, .notConnected)
  | some user =>
    let clean := jsTake (jsTrim (newUsername.getD "")) 20
    if clean == "" then (s, .invalidName)
    else if (s.connectedUsers.find? (fun p =>
        toLowerStr p.2.username == toLowerStr clean && !(p.2.id == sid))).isSome then
      (s, .taken)
    else
      let user' := { user with username := clean }
      let s1 := { s with connectedUsers := setA s.connectedUsers sid user' }
      let chMsg := mkSystemMessage s1.msgCtr
        (user.username ++ " a changé son pseudo en " ++ clean)
      let hr := addToHistory s1.chatHistory s1.messageReactions chMsg
      ({ s1 with chatHistory := hr.1, messageReactions := hr.2,
                 msgCtr := s1.msgCtr + 1 }, .renamed)

/-- `admin_action` case `'rename'` (src/server.js:880-913): after the shared
secret check, find the target session by case-insensitive name (JS `forEach`
reassignment: the last match wins), and when found and the new value is
truthy, overwrite its display name (capped at 20 chars) with NO uniqueness
check, then broadcast a system message. -/
def admin_rename (s : ServerState) (password target value : String) :
    ServerState × Bool :=
  if password != adminPassword then (s, false)
  else
    match lastMatch s.connectedUsers
        (fun p => toLowerStr p.2.username == toLowerStr target) with
    | some kv =>
      if value != "" then
        let u' := { kv.2 with username := jsTake value 20 }
        let s1 := { s with connectedUsers := setA s.connectedUsers kv.1 u' }
        let renameMsg := mkSystemMessage s1.msgCtr
          ("👤 " ++ kv.2.username ++ " a été renommé en " ++ value ++
           " par un administrateur")
        let hr := addToHistory s1.chatHistory s1.messageReactions renameMsg
        ({ s1 with chatHistory := hr.1, messageReactions := hr.2,
                   msgCtr := s1.msgCtr + 1 }, true)
      else (s, false)
    | none => (s, false)

/-- `admin_action` case `'clear_history'` (src/server.js:915-931): after the
shared secret check, truncate `chatHistory`, delete every `messageReactions`
key, and broadcast a system message (built with `messageId++` but NOT added
to any log).  `channelHistories` is not touched. -/
def admin_clear_history (s : ServerState) (password : String) :
    ServerState × Bool :=
  if password != adminPassword then (s, false)
  else
    ({ s with chatHistory := [], messageReactions := [],
              msgCtr := s.msgCtr + 1 }, true)

/- ### Typing sweep and disconnect (src/server.js:2363-2383, 1693-1750) -/

/-- `updateTypingIndicator` (src/server.js:2363-2383): drop typing entries
older than 5s or belonging to sockets no longer connected. -/
def updateTypingPrune (typing : List (Nat × TypingInfo))
    (users : List (Nat × UserInfo)) (now : Nat) : List (Nat × TypingInfo) :=
  typing.filter (fun p => now - p.2.timestamp < 5000 && (lookupA users p.1).isSome)

/-- The `disconnect` handler (src/server.js:1693-1750) for socket `sid`:
when a session exists, remove the name from `adminUsersList`, append a
departure system message via `addToHistory` and broadcast it (the returned
`Bool`), delete the typing entry (running the typing sweep, with the
session still registered at that point, as in the source), and finally
delete the session.  `global.activeGames` is never consulted. -/
def disconnect (s : ServerState) (sid : Nat) (now : Nat) : ServerState × Bool :=
  match lookupA s.connectedUsers sid with
  | none => (s, false)
  | some user =>
    let s1 := { s with adminUsersList := s.adminUsersList.erase user.username }
    let leaveMsg := mkSystemMessage s1.msgCtr (user.username ++ " a quitté le chat")
    let hr := addToHistory s1.chatHistory s1.messageReactions leaveMsg
    let s2 := { s1 with chatHistory := hr.1, messageReactions := hr.2,
                        msgCtr := s1.msgCtr + 1 }
    let typing' := if (lookupA s2.typingUsers sid).isSome then
        updateTypingPrune (eraseA s2.typingUsers sid) s2.connectedUsers now
      else s2.typingUsers
    let s3 := { s2 with typingUsers := typing',
                        connectedUsers := eraseA s2.connectedUsers sid }
    (s3, true)

/- ### Message admission and sending (src/server.js:1437-1570) -/

/-- Payload of a `send_message` event; absent JS fields are `none`. -/
structure MsgPayload where
  mtype : Option String
  channel : Option String
  content : Option String
  attachment : Option String
  deriving Repr, DecidableEq

inductive SendResult where
  | notConnected
  | muted
  | slowModeActive (remainingTime : Nat)
  | invalidChannel
  | emptyMessage
  | sent (m : Message)
  deriving Repr, DecidableEq

/-- The `send_message` handler (src/server.js:1437-1570).  Gates in source
order: registered session; global mute (admins by name exempt); slow mode
(non-admins only: elapsed ms since this socket id's last accepted message
must reach `slowMode` seconds, else reject with
`Math.ceil(slowMode - elapsedMs/1000)` seconds remaining, otherwise record
`now`); channel whitelist; then the message is built (consuming a message
id), rejected if empty with no attachment, HTML-escaped, appended to the
channel log and the unified log, and the sender's typing entry cleared. -/
def send_message (s : ServerState) (sid : Nat) (p : MsgPayload) (now : Nat) :
    ServerState × SendResult :=
  match lookupA s.connectedUsers sid with
  | none => (s, .notConnected)
  | some user =>
    if s.config.globalMute && !(s.adminUsersList.contains user.username) then
      (s, .muted)
    else
      let gate : Sum Nat (List (Nat × Nat)) :=
        if s.config.slowMode > 0 && !(s.adminUsersList.contains user.username) then
          let lastTime : Nat := (lookupA s.lastMessageTime sid).getD 0
          let elapsedMs : Int := (now : Int) - (lastTime : Int)
          if elapsedMs < (s.config.slowMode : Int) * 1000 then
            .inl ((((s.config.slowMode : Int) * 1000 - elapsedMs).toNat + 999) / 1000)
          else .inr (setA s.lastMessageTime sid now)
        else .inr s.lastMessageTime
      match gate with
      | .inl remaining => (s, .slowModeActive remaining)
      | .inr lastTimes =>
        let s1 := { s with lastMessageTime := lastTimes }
        let channel := p.channel.getD "général"
        if !(AVAILABLE_CHANNELS.contains channel) then (s1, .invalidChannel)
        else
          let content := jsTake (jsTrim (p.content.getD "")) 500
          let msg : Message :=
            { id := s1.msgCtr, mtype := p.mtype.getD "user",
              username := user.username, content := content, channel := channel }
          let s2 := { s1 with msgCtr := s1.msgCtr + 1 }
          if content == "" && p.attachment.isNone then (s2, .emptyMessage)
          else
            let escaped := escapeHtml content
            let msg' := { msg with content := escaped }
            let chs := addToChannelHistory s2.channelHistories msg' channel
            let hr := addToHistory s2.chatHistory s2.messageReactions msg'
            let typing' := if (lookupA s2.typingUsers sid).isSome then
                updateTypingPrune (eraseA s2.typingUsers sid) s2.connectedUsers now
              else s2.typingUsers
            ({ s2 with channelHistories := chs, chatHistory := hr.1,
                       messageReactions := hr.2, typingUsers := typing' },
             .sent msg')

/- ### Message deletion and reactions (src/server.js:1139-1181, 632-670) -/

inductive DeleteResult where
  | notConnected
  | notFound
  | noPermission
  | deleted
  deriving Repr, DecidableEq

/-- The `delete_message` handler (src/server.js:1139-1181): a registered
session may delete a message from the unified log when it is the author or
supplies the admin secret; the message is spliced out (first id match) and
its whole `messageReactions` entry deleted. -/
def delete_message (s : ServerState) (sid : Nat) (mid : Nat) (password : String) :
    ServerState × DeleteResult :=
  match lookupA s.connectedUsers sid with
  | none => (s, .notConnected)
  | some user =>
    let isAdmin := password == adminPassword
    match s.chatHistory.find? (fun m => m.id == mid) with
    | none => (s, .notFound)
    | some msg =>
      if !isAdmin && msg.username != user.username then (s, .noPermission)
      else
        ({ s with chatHistory := s.chatHistory.eraseP (fun m => m.id == mid),
                  messageReactions := eraseA s.messageReactions mid },
         .deleted)

/-- The `reaction` handler (src/server.js:632-670): for a registered session
and truthy `messageId`/`emoji`, the nested `messageReactions[mid][emoji]`
structure is materialised unconditionally (there is no check that the
message still exists in any log); `add` appends the username when absent,
`remove` splices it out when present and prunes empty inner/outer entries;
any other combination leaves the materialised (possibly empty) entry. -/
def reaction (s : ServerState) (sid : Nat) (mid : Nat) (emoji : String)
    (action : String) : ServerState :=
  match lookupA s.connectedUsers sid with
  | none => s
  | some user =>
    if mid == 0 || emoji == "" then s
    else
      let entry0 := (lookupA s.messageReactions mid).getD []
      let lst0 := (lookupA entry0 emoji).getD []
      let entry1 := setA entry0 emoji lst0
      if action == "add" && !(lst0.contains user.username) then
        let entryAdd := setA entry1 emoji (lst0 ++ [user.username])
        { s with messageReactions := setA s.messageReactions mid entryAdd }
      else if action == "remove" && lst0.contains user.username then
        let lst' := lst0.erase user.username
        let entry' := if lst'.isEmpty then eraseA entry1 emoji
                      else setA entry1 emoji lst'
        let mr' := if entry'.isEmpty then eraseA s.messageReactions mid
                   else setA s.messageReactions mid entry'
        { s with messageReactions := mr' }
      else
        { s with messageReactions := setA s.messageReactions mid entry1 }

/- ### Polls (src/server.js:1792-1822) -/

inductive VoteOutcome where
  | notConnected
  | pollNotFound
  | alreadyVoted
  | voted
  deriving Repr, DecidableEq

/-- The `vote_poll` handler (src/server.js:1792-1822).  It has NO try/catch:
after recording the voter in `pollVotes`, it runs
`poll.options[optionIndex].votes++`; an out-of-range index makes that
expression throw (`undefined.votes`), modelled as `Except.error`, which
escapes the handler to the process-level `uncaughtException` hook
(src/server.js:2518-2524). -/
def vote_poll (s : ServerState) (sid : Nat) (pollId : String) (optionIndex : Nat) :
    Except String (ServerState × VoteOutcome) :=
  match lookupA s.connectedUsers sid with
  | none => .ok (s, .notConnected)
  | some user =>
    match lookupA s.polls pollId with
    | none => .ok (s, .pollNotFound)
    | some poll =>
      let votesFor := (lookupA s.pollVotes pollId).getD []
      if (lookupA votesFor user.username).isSome then .ok (s, .alreadyVoted)
      else
        let pollVotes' := setA s.pollVotes pollId (setA votesFor user.username optionIndex)
        match poll.options.get? optionIndex with
        | none => .error "TypeError: cannot read votes of undefined"
        | some opt =>
          let poll' := { poll with options := poll.options.set optionIndex (opt.1, opt.2 + 1) }
          .ok ({ s with polls := setA s.polls pollId poll',
                        pollVotes := pollVotes' }, .voted)

/- ### Turn-based game engine (src/server.js:2111-2274) -/

/-- A `game_move` payload; JS destructures `move.index` (tic-tac-toe) or
`move.col` (connect4) from the same object. -/
structure GMove where
  index : Nat
  col : Nat
  deriving Repr, DecidableEq

/-- `initGameState` (src/server.js:2180-2189). -/
def initGameState (gameType : String) : GState :=
  if gameType == "tictactoe" then .tictactoe (List.replicate 9 "")
  else if gameType == "connect4" then
    .connect4 (List.replicate 6 (List.replicate 7 ""))
  else .emptyState

/-- JS assignment `arr[i] = v` on an array read back through truthiness:
in range it updates, past the end it extends the array (holes read as
falsy `undefined`, modelled as `""`). -/
def setPad (l : List String) (i : Nat) (v : String) : List String :=
  if i < l.length then l.set i v
  else (l ++ List.replicate (i - l.length) "") ++ [v]

/-- `checkTTTWinner` (src/server.js:2247-2255): a line of three equal,
non-empty marks wins (reads past the board are falsy). -/
def checkTTTWinner (board : List String) : Option String :=
  let lines : List (Nat × Nat × Nat) :=
    [(0,1,2),(3,4,5),(6,7,8),(0,3,6),(1,4,7),(2,5,8),(0,4,8),(2,4,6)]
  match lines.find? (fun l =>
      let a := board.getD l.1 ""
      a != "" && a == board.getD l.2.1 "" && a == board.getD l.2.2 "") with
  | some l => some (board.getD l.1 "")
  | none => none

/-- The connect4 drop scan (src/server.js:2219-2226): the first row from the
bottom (5) upward whose cell at `col` is falsy (out-of-range columns read as
`undefined`, hence falsy). -/
def c4FindRow (board : List (List String)) (col : Nat) : Option Nat :=
  [5, 4, 3, 2, 1, 0].find? (fun r => (board.getD r []).getD col "" == "")

/-- One bounds-plus-ownership test of `checkC4Winner` (src/server.js:2266). -/
def c4CellOk (board : List (List String)) (player : String) (r c : Int) : Bool :=
  0 ≤ r && r < 6 && 0 ≤ c && c < 7 &&
    ((board.getD r.toNat []).getD c.toNat "" == player)

/-- The inner `for i in 1..3 / break` loop of `checkC4Winner`
(src/server.js:2262-2269) in one direction `dir`: the length of the
contiguous same-colour run adjacent to the placed cell. -/
def c4RunLen (board : List (List String)) (player : String) (row col dr dc dir : Int) :
    Nat :=
  if c4CellOk board player (row + dr * 1 * dir) (col + dc * 1 * dir) then
    if c4CellOk board player (row + dr * 2 * dir) (col + dc * 2 * dir) then
      if c4CellOk board player (row + dr * 3 * dir) (col + dc * 3 * dir) then 3
      else 2
    else 1
  else 0

/-- `checkC4Winner` (src/server.js:2257-2274): along each of the four axes,
count contiguous same-colour cells through the placed cell; a total ≥ 4 wins. -/
def checkC4Winner (board : List (List String)) (row col : Nat) (player : String) :
    Option String :=
  let dirs : List (Int × Int) := [(0,1), (1,0), (1,1), (1,-1)]
  if dirs.any (fun d =>
      4 ≤ 1 + c4RunLen board player row col d.1 d.2 (-1)
            + c4RunLen board player row col d.1 d.2 1) then
    some player
  else none

inductive MoveResult where
  | invalid
  | valid (state : GState) (nextTurn : Int) (winner : Option String) (draw : Bool)
  deriving Repr, DecidableEq

/-- `applyGameMove` (src/server.js:2192-2245).  Tic-tac-toe: an occupied
(truthy) cell is invalid, otherwise the mark is written (out-of-range
indices read as falsy and are accepted, extending the board). Connect4: a
column with no falsy cell in rows 5..0 is invalid, otherwise the piece
lands in the lowest such row.  Valid moves evaluate win/draw; on a
terminal outcome `nextTurn = -1`, else the turn alternates. -/
def applyGameMove (game : Game) (move : GMove) (playerIndex : Nat) : MoveResult :=
  let symbols := ["X", "O"]
  let colors := ["red", "yellow"]
  if game.gtype == "tictactoe" then
    match game.state with
    | .tictactoe board =>
      if board.getD move.index "" != "" then .invalid
      else
        let board' := setPad board move.index (symbols.getD playerIndex "")
        let winner := checkTTTWinner board'
        let draw := winner.isNone && !(board'.contains "")
        .valid (.tictactoe board')
          (if winner.isSome || draw then -1 else ((playerIndex + 1) % 2 : Nat))
          (if winner.isSome then
             some ((game.players.getD playerIndex ⟨"", 0⟩).username)
           else none)
          draw
    | _ => .invalid
  else if game.gtype == "connect4" then
    match game.state with
    | .connect4 board =>
      match c4FindRow board move.col with
      | none => .invalid
      | some row =>
        let color := colors.getD playerIndex ""
        let board' := board.set row (setPad (board.getD row []) move.col color)
        let winner := checkC4Winner board' row move.col color
        let draw := winner.isNone && (board'.getD 0 []).all (fun cell => cell != "")
        .valid (.connect4 board')
          (if winner.isSome || draw then -1 else ((playerIndex + 1) % 2 : Nat))
          (if winner.isSome then
             some ((game.players.getD playerIndex ⟨"", 0⟩).username)
           else none)
          draw
    | _ => .invalid
  else .invalid

/-- What a valid move broadcasts to both players (src/server.js:2132-2142). -/
structure GameBroadcast where
  state : GState
  nextTurnIdx : Int
  winner : Option String
  draw : Bool
  deriving Repr, DecidableEq

/-- The `game_move` handler (src/server.js:2111-2153): the game must exist,
the sender must be registered and one of the two bound players, and it must
be that player's turn; then `applyGameMove` runs, and only a valid result
mutates the stored game (deleting it on win/draw) and broadcasts. -/
def game_move (s : ServerState) (sid : Nat) (gameId : String) (move : GMove) :
    ServerState × Option GameBroadcast :=
  match lookupA s.activeGames gameId with
  | none => (s, none)
  | some game =>
    match lookupA s.connectedUsers sid with
    | none => (s, none)
    | some user =>
      match game.players.findIdx? (fun p => p.username == user.username) with
      | none => (s, none)
      | some playerIndex =>
        if (playerIndex : Int) != game.currentTurn then (s, none)
        else
          match applyGameMove game move playerIndex with
          | .invalid => (s, none)
          | .valid st nextTurn winner draw =>
            let game' := { game with state := st, currentTurn := nextTurn }
            let games' := if winner.isSome || draw
              then eraseA s.activeGames gameId
              else setA s.activeGames gameId game'
            ({ s with activeGames := games' },
             some { state := st, nextTurnIdx := nextTurn, winner := winner,
                    draw := draw })

/-- The `game_quit` handler (src/server.js:2156-2176): when the game and a
registered sender exist, notify every bound player with a different name
(returned socket ids) and delete the game session unconditionally. -/
def game_quit (s : ServerState) (sid : Nat) (gameId : String) :
    ServerState × List Nat :=
  match lookupA s.activeGames gameId with
  | none => (s, [])
  | some game =>
    match lookupA s.connectedUsers sid with
    | none => (s, [])
    | some user =>
      let notified := (game.players.filter
        (fun p => p.username != user.username)).map (·.socketId)
      ({ s with activeGames := eraseA s.activeGames gameId }, notified)

/- ### Generic lemmas about the association-list model -/

theorem lookupA_setA_self {κ α : Type} [DecidableEq κ] (l : List (κ × α))
    (k : κ) (v : α) : lookupA (setA l k v) k = some v := by
  induction l with
  | nil => simp [setA, lookupA]
  | cons a rest ih =>
    obtain ⟨k', v'⟩ := a
    by_cases h : k' = k
    · simp [setA, lookupA, h]
    · simp [setA, lookupA, h, ih]

theorem mem_setA {κ α : Type} [DecidableEq κ] (l : List (κ × α)) (k : κ)
    (v : α) (x : κ × α) (hx : x ∈ setA l k v) : x = (k, v) ∨ x ∈ l := by
  induction l with
  | nil => simpa [setA] using hx
  | cons a rest ih =>
    obtain ⟨k', v'⟩ := a
    by_cases h : k' = k
    · simp only [setA, if_pos h] at hx
      rcases List.mem_cons.1 hx with h1 | h1
      · exact Or.inl h1
      · exact Or.inr (List.mem_cons_of_mem _ h1)
    · simp only [setA, if_neg h] at hx
      rcases List.mem_cons.1 hx with h1 | h1
      · exact Or.inr (h1 ▸ List.mem_cons_self _ _)
      · rcases ih h1 with h2 | h2
        · exact Or.inl h2
        · exact Or.inr (List.mem_cons_of_mem _ h2)

theorem lookupA_eq_none_iff {κ α : Type} [DecidableEq κ] (l : List (κ × α))
    (k : κ) : lookupA l k = none ↔ k ∉ l.map Prod.fst := by
  induction l with
  | nil => simp [lookupA]
  | cons a rest ih =>
    obtain ⟨k', v'⟩ := a
    by_cases h : k' = k
    · simp [lookupA, h]
    · simp [lookupA, h, ih, Ne.symm h]

theorem lookupA_eraseA_self {κ α : Type} [DecidableEq κ] (l : List (κ × α))
    (k : κ) (h : (l.map Prod.fst).Nodup) : lookupA (eraseA l k) k = none := by
  induction l with
  | nil => simp [eraseA, lookupA]
  | cons a rest ih =>
    obtain ⟨k', v'⟩ := a
    simp only [List.map_cons, List.nodup_cons] at h
    by_cases hk : k' = k
    · simp only [eraseA, if_pos hk]
      exact (lookupA_eq_none_iff rest k).2 (hk ▸ h.1)
    · simp only [eraseA, if_neg hk, lookupA, if_neg hk]
      exact ih h.2

theorem lookupA_filter_none {κ α : Type} [DecidableEq κ] (l : List (κ × α))
    (k : κ) (p : κ × α → Bool) (h : lookupA l k = none) :
    lookupA (l.filter p) k = none := by
  rw [lookupA_eq_none_iff] at h ⊢
  intro hmem
  obtain ⟨x, hx, hxk⟩ := List.mem_map.1 hmem
  exact h (List.mem_map.2 ⟨x, (List.mem_filter.1 hx).1, hxk⟩)

theorem takeLast_length_le {α : Type} (n : Nat) (l : List α) :
    (takeLast n l).length ≤ n := by
  simp only [takeLast, List.length_drop]
  omega

theorem takeLast_of_le {α : Type} (n : Nat) (l : List α) (h : l.length ≤ n) :
    takeLast n l = l := by
  have h0 : l.length - n = 0 := by omega
  simp [takeLast, h0]

/- ### Case-insensitive name uniqueness -/

/-- The case-insensitive display name of a registry binding. -/
def lowerName (p : Nat × UserInfo) : String := toLowerStr p.2.username

/-- "At most one live session holds any given case-insensitive name": the
lowercased names of the registry are pairwise distinct. -/
def namesNodup (users : List (Nat × UserInfo)) : Prop :=
  (users.map lowerName).Nodup

/-- The map keys are pairwise distinct (a JS `Map` cannot duplicate keys). -/
def keysNodup {κ α : Type} (l : List (κ × α)) : Prop :=
  (l.map Prod.fst).Nodup

instance (users : List (Nat × UserInfo)) : Decidable (namesNodup users) := by
  unfold namesNodup; infer_instance

instance {κ α : Type} [DecidableEq κ] (l : List (κ × α)) :
    Decidable (keysNodup l) := by
  unfold keysNodup; infer_instance

theorem namesNodup_setA (l : List (Nat × UserInfo)) (k : Nat) (u : UserInfo)
    (hk : keysNodup l) (hn : namesNodup l)
    (hfresh : ∀ p ∈ l, p.1 ≠ k → lowerName p ≠ toLowerStr u.username) :
    namesNodup (setA l k u) := by
  induction l with
  | nil => simp [setA, namesNodup, lowerName]
  | cons a rest ih =>
    obtain ⟨k', v'⟩ := a
    simp only [keysNodup, List.map_cons, List.nodup_cons] at hk
    simp only [namesNodup, List.map_cons, List.nodup_cons] at hn
    by_cases h : k' = k
    · simp only [setA, if_pos h, namesNodup, List.map_cons, List.nodup_cons]
      refine ⟨?_, hn.2⟩
      intro hmem
      obtain ⟨p, hp, hpl⟩ := List.mem_map.1 hmem
      have hpk : p.1 ≠ k := by
        intro he
        apply hk.1
        rw [h, ← he]
        exact List.mem_map.2 ⟨p, hp, rfl⟩
      exact hfresh p (List.mem_cons_of_mem _ hp) hpk
        (by simpa [lowerName] using hpl)
    · simp only [setA, if_neg h, namesNodup, List.map_cons, List.nodup_cons]
      constructor
      · intro hmem
        obtain ⟨p, hp, hpl⟩ := List.mem_map.1 hmem
        rcases mem_setA rest k u p hp with h2 | h2
        · subst h2
          exact hfresh (k', v') (List.mem_cons_self _ _) h (by simpa [lowerName] using hpl.symm) |>.elim
        · exact hn.1 (hpl ▸ List.mem_map.2 ⟨p, h2, rfl⟩)
      · exact ih hk.2 hn.2 (fun p hp => hfresh p (List.mem_cons_of_mem _ hp))

theorem eraseP_id_ne (l : List Message) (mid : Nat)
    (h : (l.map (·.id)).Nodup) :
    ∀ x ∈ l.eraseP (fun m => m.id == mid), x.id ≠ mid := by
  induction l with
  | nil => simp
  | cons a rest ih =>
    simp only [List.map_cons, List.nodup_cons] at h
    by_cases ha : a.id = mid
    · rw [List.eraseP_cons_of_pos (by simpa using ha)]
      intro x hx he
      apply h.1
      rw [ha, ← he]
      exact List.mem_map.2 ⟨x, hx, rfl⟩
    · rw [List.eraseP_cons_of_neg (by simpa using ha)]
      intro x hx
      rcases List.mem_cons.1 hx with h1 | h1
      · exact h1 ▸ ha
      · exact ih h.2 x h1

/- ### Concrete states for witnesses and counterexamples -/

/-- The server state right after startup (src/server.js:73-128 with the
per-channel logs initialised at 93-96). -/
def initialState : ServerState :=
  { connectedUsers := [], chatHistory := [],
    channelHistories := AVAILABLE_CHANNELS.map (fun ch => (ch, [])),
    messageReactions := [], adminUsersList := [], typingUsers := [],
    bannedUsers := [], lastMessageTime := [],
    config := { isPrivate := false, accessCode := "", slowMode := 0,
                globalMute := false },
    polls := [], pollVotes := [], activeGames := [], msgCtr := 1 }

/- ### C1: case-insensitive name uniqueness -/

theorem joinChecks_spec (s : ServerState) (sid : Nat)
    (clean avatar accessCode : String) :
    ((joinChecks s sid clean avatar accessCode).1.connectedUsers = s.connectedUsers
      ∧ (joinChecks s sid clean avatar accessCode).2 ≠ JoinResult.joined)
    ∨ ((s.connectedUsers.find? (fun p =>
          toLowerStr p.2.username == toLowerStr clean)) = none
      ∧ (joinChecks s sid clean avatar accessCode).1.connectedUsers
          = setA s.connectedUsers sid ⟨sid, clean, avatar⟩
      ∧ (joinChecks s sid clean avatar accessCode).2 = JoinResult.joined) := by
  cases h1 : (s.config.isPrivate && s.config.accessCode != ""
      && accessCode != s.config.accessCode) with
  | true => left; simp [joinChecks, h1]
  | false =>
    cases h2 : (s.connectedUsers.find? (fun p =>
        toLowerStr p.2.username == toLowerStr clean)).isSome with
    | true => left; simp [joinChecks, h1, h2]
    | false =>
      right
      refine ⟨Option.not_isSome_iff_eq_none.1 (by simp [h2]), ?_, ?_⟩ <;>
        simp [joinChecks, h1, h2]

/-- C1 (amended).  `user_join` rejects a name already held by a live session,
and both `user_join` and the self-service `change_username` preserve the
case-insensitive uniqueness of live display names — but the admin-forced
rename does not (see the counterexample).  Hypotheses: the registry is a
well-formed JS `Map` (distinct keys, each session's `id` field equal to its
key) satisfying the uniqueness invariant. -/
theorem join_and_self_rename_preserve_name_uniqueness
    (s : ServerState) (sid : Nat) (username avatar accessCode : String)
    (now : Nat) (newName : Option String)
    (hkeys : keysNodup s.connectedUsers)
    (hwf : ∀ p ∈ s.connectedUsers, p.2.id = p.1)
    (hn : namesNodup s.connectedUsers) :
    ((s.connectedUsers.find? (fun p =>
        toLowerStr p.2.username == toLowerStr (jsTake (jsTrim username) 20))).isSome →
      (user_join s sid username avatar accessCode now).2 ≠ JoinResult.joined)
    ∧ namesNodup (user_join s sid username avatar accessCode now).1.connectedUsers
    ∧ namesNodup (change_username s sid newName).1.connectedUsers := by
  have hjoin : ((user_join s sid username avatar accessCode now).1.connectedUsers
        = s.connectedUsers
      ∧ (user_join s sid username avatar accessCode now).2 ≠ JoinResult.joined)
    ∨ ((s.connectedUsers.find? (fun p =>
          toLowerStr p.2.username == toLowerStr (jsTake (jsTrim username) 20))) = none
      ∧ (user_join s sid username avatar accessCode now).1.connectedUsers
          = setA s.connectedUsers sid ⟨sid, jsTake (jsTrim username) 20, avatar⟩) := by
    by_cases h0 : (jsTrim username).length = 0
    · left
      constructor <;> simp [user_join, h0]
    · cases hban : lookupA s.bannedUsers (toLowerStr (jsTake (jsTrim username) 20)) with
      | none =>
        have he : user_join s sid username avatar accessCode now
            = joinChecks s sid (jsTake (jsTrim username) 20) avatar accessCode := by
          simp [user_join, h0, hban]
        rw [he]
        rcases joinChecks_spec s sid (jsTake (jsTrim username) 20) avatar accessCode with
          ⟨ha, hb⟩ | ⟨ha, hb, _⟩
        · exact Or.inl ⟨ha, hb⟩
        · exact Or.inr ⟨ha, hb⟩
      | some ban =>
        cases hexp : (!ban.permanent && decide ((ban.expiresAt.getD 0) < now)) with
        | false =>
          have he : user_join s sid username avatar accessCode now
              = (s, JoinResult.bannedRejected) := by
            simp [user_join, h0, hban, hexp]
          rw [he]
          exact Or.inl ⟨rfl, by simp⟩
        | true =>
          have he : user_join s sid username avatar accessCode now
              = joinChecks { s with bannedUsers := eraseA s.bannedUsers (toLowerStr (jsTake (jsTrim username) 20)) } sid (jsTake (jsTrim username) 20) avatar accessCode := by
            simp [user_join, h0, hban, hexp]
          rw [he]
          rcases joinChecks_spec { s with bannedUsers := eraseA s.bannedUsers (toLowerStr (jsTake (jsTrim username) 20)) } sid (jsTake (jsTrim username) 20) avatar accessCode with
            ⟨ha, hb⟩ | ⟨ha, hb, _⟩
          · exact Or.inl ⟨ha, hb⟩
          · exact Or.inr ⟨ha, hb⟩
  refine ⟨?_, ?_, ?_⟩
  · intro hdup
    rcases hjoin with ⟨_, hb⟩ | ⟨ha, _⟩
    · exact hb
    · rw [ha] at hdup; simp at hdup
  · rcases hjoin with ⟨ha, _⟩ | ⟨ha, hb⟩
    · rw [ha]; exact hn
    · rw [hb]
      refine namesNodup_setA _ _ _ hkeys hn ?_
      intro p hp _
      have := List.find?_eq_none.1 ha p hp
      simpa [lowerName] using this
  · cases hu : lookupA s.connectedUsers sid with
    | none =>
      have he : change_username s sid newName = (s, RenameResult.notConnected) := by
        simp [change_username, hu]
      rw [he]
      exact hn
    | some user =>
      by_cases hempty : ((jsTake (jsTrim (newName.getD "")) 20) == "") = true
      · have he : change_username s sid newName = (s, RenameResult.invalidName) := by
          simp [change_username, hu, hempty]
        rw [he]
        exact hn
      · cases hfind : (s.connectedUsers.find? (fun p =>
            toLowerStr p.2.username == toLowerStr (jsTake (jsTrim (newName.getD "")) 20)
              && !(p.2.id == sid))).isSome with
        | true =>
          have he : change_username s sid newName = (s, RenameResult.taken) := by
            simp [change_username, hu, hempty, hfind]
          rw [he]
          exact hn
        | false =>
          have he : (change_username s sid newName).1.connectedUsers
              = setA s.connectedUsers sid
                  { user with username := jsTake (jsTrim (newName.getD "")) 20 } := by
            simp [change_username, hu, hempty, hfind]
          rw [he]
          refine namesNodup_setA _ _ _ hkeys hn ?_
          intro p hp hpk hcontra
          have hnone : s.connectedUsers.find? (fun p =>
              toLowerStr p.2.username == toLowerStr (jsTake (jsTrim (newName.getD "")) 20)
                && !(p.2.id == sid)) = none :=
            Option.not_isSome_iff_eq_none.1 (by simp [hfind])
          have h1 := List.find?_eq_none.1 hnone p hp
          apply h1
          have h2 : (p.2.id == sid) = false := by
            have hw := hwf p hp
            simp [hw, hpk]
          rw [h2]
          have h3 : (toLowerStr p.2.username
              == toLowerStr (jsTake (jsTrim (newName.getD "")) 20)) = true := by
            simpa [lowerName] using hcontra
          simp [h3]

/-- Witness for C1 at concrete inputs: with `alice` live, a join as `Alice`
is not accepted; a join as `Bob` and a self-rename of `alice` keep names
unique. -/
theorem join_and_self_rename_preserve_name_uniqueness_witness :
    (user_join { initialState with
        connectedUsers := [(1, ⟨1, "alice", ""⟩)] } 2 "Alice" "" "" 0).2
      ≠ JoinResult.joined
    ∧ namesNodup (user_join { initialState with
        connectedUsers := [(1, ⟨1, "alice", ""⟩)] } 2 "Bob" "" "" 0).1.connectedUsers
    ∧ namesNodup (change_username { initialState with
        connectedUsers := [(1, ⟨1, "alice", ""⟩)] } 1
        (some "alicia")).1.connectedUsers := by
  refine ⟨?_, ?_, ?_⟩
  · exact (join_and_self_rename_preserve_name_uniqueness _ 2 "Alice" "" "" 0
      (some "x") (by decide) (by decide) (by decide)).1 (by decide)
  · exact (join_and_self_rename_preserve_name_uniqueness _ 2 "Bob" "" "" 0
      (some "x") (by decide) (by decide) (by decide)).2.1
  · exact (join_and_self_rename_preserve_name_uniqueness _ 1 "_" "" "" 0
      (some "alicia") (by decide) (by decide) (by decide)).2.2

/-- Counterexample to C1 as stated: the admin-forced rename performs no
uniqueness check, so renaming `bob` to `Alice` while `alice` is live leaves
two sessions with the same case-insensitive name. -/
theorem admin_rename_violates_name_uniqueness :
    namesNodup ({ initialState with connectedUsers :=
        [(1, ⟨1, "alice", ""⟩), (2, ⟨2, "bob", ""⟩)] } : ServerState).connectedUsers
    ∧ ¬ namesNodup (admin_rename { initialState with connectedUsers :=
        [(1, ⟨1, "alice", ""⟩), (2, ⟨2, "bob", ""⟩)] }
        adminPassword "bob" "Alice").1.connectedUsers := by
  constructor
  · decide
  · decide

/- ### C2: disconnect cleanup -/

/-- C2 (amended).  Processing a disconnect of a connected session
synchronously removes the session from the registry, clears its typing
state, removes its admin-list membership and broadcasts a departure
notice — but it does NOT end games the session is a player in:
`activeGames` is left entirely unchanged (games die only through an
explicit `game_quit`, which does delete the session's game, or a terminal
move).  Hypotheses: a session is registered at `sid` and the JS maps have
distinct keys / the admin list has no duplicates. -/
theorem disconnect_cleanup_except_games
    (s : ServerState) (sid : Nat) (now : Nat) (user : UserInfo)
    (hu : lookupA s.connectedUsers sid = some user)
    (hkU : keysNodup s.connectedUsers)
    (hkT : keysNodup s.typingUsers)
    (hkG : keysNodup s.activeGames)
    (hA : s.adminUsersList.Nodup) :
    (disconnect s sid now).2 = true
    ∧ lookupA (disconnect s sid now).1.connectedUsers sid = none
    ∧ lookupA (disconnect s sid now).1.typingUsers sid = none
    ∧ user.username ∉ (disconnect s sid now).1.adminUsersList
    ∧ (disconnect s sid now).1.activeGames = s.activeGames
    ∧ ∀ gid game, lookupA s.activeGames gid = some game →
        lookupA (game_quit s sid gid).1.activeGames gid = none := by
  have hd : disconnect s sid now
      = ({ s with
            adminUsersList := s.adminUsersList.erase user.username,
            chatHistory := (addToHistory s.chatHistory s.messageReactions (mkSystemMessage s.msgCtr (user.username ++ " a quitté le chat"))).1,
            messageReactions := (addToHistory s.chatHistory s.messageReactions (mkSystemMessage s.msgCtr (user.username ++ " a quitté le chat"))).2,
            msgCtr := s.msgCtr + 1,
            typingUsers := if (lookupA s.typingUsers sid).isSome then updateTypingPrune (eraseA s.typingUsers sid) s.connectedUsers now else s.typingUsers,
            connectedUsers := eraseA s.connectedUsers sid }, true) := by
    simp [disconnect, hu]
  refine ⟨?_, ?_, ?_, ?_, ?_, ?_⟩
  · rw [hd]
  · rw [hd]
    exact lookupA_eraseA_self s.connectedUsers sid hkU
  · rw [hd]
    simp only
    cases ht : (lookupA s.typingUsers sid).isSome with
    | true =>
      simp only [if_pos rfl]
      exact lookupA_filter_none _ _ _ (lookupA_eraseA_self s.typingUsers sid hkT)
    | false =>
      simp only [Bool.false_eq_true, if_false]
      exact Option.not_isSome_iff_eq_none.1 (by simp [ht])
  · rw [hd]
    exact hA.not_mem_erase
  · rw [hd]
  · intro gid game hg
    have hq : (game_quit s sid gid).1.activeGames = eraseA s.activeGames gid := by
      simp [game_quit, hg, hu]
    rw [hq]
    exact lookupA_eraseA_self s.activeGames gid hkG

/-- Witness for C2 at a concrete state: `alice` (socket 1) is connected,
typing, an admin, and in a running game with `bob`. -/
theorem disconnect_cleanup_except_games_witness :
    (disconnect { initialState with
        connectedUsers := [(1, ⟨1, "alice", ""⟩), (2, ⟨2, "bob", ""⟩)],
        typingUsers := [(1, ⟨"alice", "général", 0⟩)],
        adminUsersList := ["alice"],
        activeGames := [("g1", ⟨"tictactoe", [⟨"alice", 1⟩, ⟨"bob", 2⟩], initGameState "tictactoe", 0⟩)] } 1 0).2 = true
    ∧ (disconnect { initialState with
        connectedUsers := [(1, ⟨1, "alice", ""⟩), (2, ⟨2, "bob", ""⟩)],
        typingUsers := [(1, ⟨"alice", "général", 0⟩)],
        adminUsersList := ["alice"],
        activeGames := [("g1", ⟨"tictactoe", [⟨"alice", 1⟩, ⟨"bob", 2⟩], initGameState "tictactoe", 0⟩)] } 1 0).1.activeGames
      = [("g1", ⟨"tictactoe", [⟨"alice", 1⟩, ⟨"bob", 2⟩], initGameState "tictactoe", 0⟩)] := by
  have h := disconnect_cleanup_except_games
    { initialState with
        connectedUsers := [(1, ⟨1, "alice", ""⟩), (2, ⟨2, "bob", ""⟩)],
        typingUsers := [(1, ⟨"alice", "général", 0⟩)],
        adminUsersList := ["alice"],
        activeGames := [("g1", ⟨"tictactoe", [⟨"alice", 1⟩, ⟨"bob", 2⟩], initGameState "tictactoe", 0⟩)] }
    1 0 ⟨1, "alice", ""⟩ (by decide) (by decide) (by decide) (by decide) (by decide)
  exact ⟨h.1, h.2.2.2.2.1⟩

/-- Counterexample to C2 as stated: after `alice` (a player of game `g1`)
disconnects, `g1` is still registered — the disconnect path never ends
games. -/
theorem disconnect_leaves_games_running :
    lookupA (disconnect { initialState with
        connectedUsers := [(1, ⟨1, "alice", ""⟩), (2, ⟨2, "bob", ""⟩)],
        activeGames := [("g1", ⟨"tictactoe", [⟨"alice", 1⟩, ⟨"bob", 2⟩], initGameState "tictactoe", 0⟩)] } 1 0).1.activeGames "g1" ≠ none := by
  decide

/- ### C3: bounded FIFO histories -/

theorem addToChannelHistory_eq (chs : List (String × List Message)) (m : Message)
    (channel : String) :
    addToChannelHistory chs m channel
      = setA chs channel
          (takeLast MAX_CHANNEL_HISTORY ((lookupA chs channel).getD [] ++ [m])) := by
  unfold addToChannelHistory
  simp only
  split
  · rfl
  · rw [takeLast_of_le MAX_CHANNEL_HISTORY _ (by omega)]

theorem addToHistory_fst (hist : List Message) (reactions : Reactions) (m : Message) :
    (addToHistory hist reactions m).1 = takeLast MAX_HISTORY (hist ++ [m]) := by
  unfold addToHistory
  simp only
  split
  · rfl
  · rw [takeLast_of_le MAX_HISTORY _ (by omega)]

/-- C3 (amended).  Appends through `addToChannelHistory` keep every
per-channel log at ≤ 200 entries and appends through `addToHistory` keep the
unified legacy log at ≤ 500 entries, in both cases retaining exactly the
most recent entries in arrival order (`takeLast` of the appended log) — but
the `gemini_response` append path bypasses `addToChannelHistory` and trims
the channel log at 500 instead of 200, so a channel log can grow to 500
through it (see the counterexample); that path still evicts oldest-first
with bound 500. -/
theorem bounded_fifo_histories (chs : List (String × List Message))
    (hist : List Message) (reactions : Reactions) (m : Message) (channel : String)
    (s : ServerState) (sid : Nat) (ch? : Option String) (content : String)
    (hc : ∀ p ∈ chs, p.2.length ≤ MAX_CHANNEL_HISTORY)
    (hb : ∀ p ∈ s.channelHistories, p.2.length ≤ 500) :
    (∀ p ∈ addToChannelHistory chs m channel, p.2.length ≤ MAX_CHANNEL_HISTORY)
    ∧ lookupA (addToChannelHistory chs m channel) channel
        = some (takeLast MAX_CHANNEL_HISTORY ((lookupA chs channel).getD [] ++ [m]))
    ∧ (addToHistory hist reactions m).1 = takeLast MAX_HISTORY (hist ++ [m])
    ∧ (addToHistory hist reactions m).1.length ≤ MAX_HISTORY
    ∧ (∀ p ∈ (gemini_response s sid ch? content).channelHistories,
        p.2.length ≤ 500) := by
  refine ⟨?_, ?_, ?_, ?_, ?_⟩
  · rw [addToChannelHistory_eq]
    intro p hp
    rcases mem_setA _ _ _ _ hp with h1 | h1
    · rw [h1]
      exact takeLast_length_le _ _
    · exact hc p h1
  · rw [addToChannelHistory_eq]
    exact lookupA_setA_self _ _ _
  · exact addToHistory_fst hist reactions m
  · rw [addToHistory_fst]
    exact takeLast_length_le _ _
  · intro p hp
    cases hu : lookupA s.connectedUsers sid with
    | none =>
      rw [gemini_response, hu] at hp
      exact hb p hp
    | some u =>
      rw [gemini_response, hu] at hp
      simp only at hp
      rcases mem_setA _ _ _ _ hp with h1 | h1
      · rw [h1]
        simp only
        split
        · exact takeLast_length_le _ _
        · omega
      · exact hb p h1

/-- Witness for C3 at concrete inputs. -/
theorem bounded_fifo_histories_witness :
    (∀ p ∈ addToChannelHistory [("jeux", [])] ⟨2, "user", "a", "x", "jeux"⟩ "jeux",
        p.2.length ≤ MAX_CHANNEL_HISTORY)
    ∧ (∀ p ∈ (gemini_response { initialState with
          connectedUsers := [(1, ⟨1, "alice", ""⟩)] } 1 (some "jeux") "yo").channelHistories,
        p.2.length ≤ 500) := by
  have h := bounded_fifo_histories [("jeux", [])] [] [] ⟨2, "user", "a", "x", "jeux"⟩
    "jeux" { initialState with connectedUsers := [(1, ⟨1, "alice", ""⟩)] }
    1 (some "jeux") "yo" (by decide) (by decide)
  exact ⟨h.1, h.2.2.2.2⟩

/-- Counterexample to C3 as stated: with the `jeux` log already holding 200
messages, one `gemini_response` append leaves it at 201 > 200 — the
per-channel cap is not enforced on that append path. -/
theorem gemini_append_exceeds_channel_cap :
    MAX_CHANNEL_HISTORY <
      ((lookupA (gemini_response { initialState with
          connectedUsers := [(1, ⟨1, "alice", ""⟩)],
          channelHistories :=
            [("jeux", List.replicate 200 ⟨1, "user", "alice", "hi", "jeux"⟩)] }
          1 (some "jeux") "yo").channelHistories "jeux").getD []).length := by
  decide

/- ### C4: game-move validation -/

/-- C4 (amended).  `game_move` validates in order — the game must exist, the
sender must be registered and one of the two bound players, and it must be
that player's turn — and a tic-tac-toe move onto an occupied cell or a
connect4 move into a column whose six rows are all occupied is rejected;
every rejection leaves the whole state untouched and broadcasts nothing.
However, occupancy is only tested by JS truthiness, so an out-of-range
tic-tac-toe index (≥ 9) or connect4 column (≥ 7) reads as an empty cell and
is ACCEPTED, mutating the board and alternating the turn (see the
counterexample); the claim's "index 0–8 / column 0–6" bound is not
enforced. -/
theorem game_move_rejections (s : ServerState) (sid : Nat) (gid : String)
    (mv : GMove) :
    (lookupA s.activeGames gid = none → game_move s sid gid mv = (s, none))
    ∧ (lookupA s.connectedUsers sid = none → game_move s sid gid mv = (s, none))
    ∧ (∀ game user, lookupA s.activeGames gid = some game →
        lookupA s.connectedUsers sid = some user →
        (game.players.findIdx? (fun p => p.username == user.username) = none →
          game_move s sid gid mv = (s, none))
        ∧ (∀ pi, game.players.findIdx? (fun p => p.username == user.username)
              = some pi →
            ((pi : Int) ≠ game.currentTurn → game_move s sid gid mv = (s, none))
            ∧ (∀ board, game.gtype = "tictactoe" → game.state = .tictactoe board →
                board.getD mv.index "" ≠ "" → game_move s sid gid mv = (s, none))
            ∧ (∀ board, game.gtype = "connect4" → game.state = .connect4 board →
                (∀ r, r < 6 → (board.getD r []).getD mv.col "" ≠ "") →
                game_move s sid gid mv = (s, none)))) := by
  refine ⟨?_, ?_, ?_⟩
  · intro hg
    simp [game_move, hg]
  · intro hu
    cases hg : lookupA s.activeGames gid with
    | none => simp [game_move, hg]
    | some game => simp [game_move, hg, hu]
  · intro game user hg hu
    constructor
    · intro hidx
      simp [game_move, hg, hu, hidx]
    · intro pi hidx
      refine ⟨?_, ?_, ?_⟩
      · intro hturn
        have ht : ((pi : Int) != game.currentTurn) = true := by
          simpa using hturn
        simp [game_move, hg, hu, hidx, ht]
      · intro board hty hst hocc
        by_cases hturn : (pi : Int) = game.currentTurn
        · have ht : ((pi : Int) != game.currentTurn) = false := by
            simpa using hturn
          have happ : applyGameMove game mv pi = .invalid := by
            have hb : ¬ board[mv.index]?.getD "" = "" := by
              simpa [List.getD] using hocc
            simp [applyGameMove, hty, hst, hb]
          simp [game_move, hg, hu, hidx, ht, happ]
        · have ht : ((pi : Int) != game.currentTurn) = true := by
            simpa using hturn
          simp [game_move, hg, hu, hidx, ht]
      · intro board hty hst hfull
        by_cases hturn : (pi : Int) = game.currentTurn
        · have ht : ((pi : Int) != game.currentTurn) = false := by
            simpa using hturn
          have hrow : c4FindRow board mv.col = none := by
            rw [c4FindRow, List.find?_eq_none]
            intro r hr
            have hr6 : r < 6 := by
              simp only [List.mem_cons, List.not_mem_nil, or_false] at hr
              rcases hr with rfl | rfl | rfl | rfl | rfl | rfl <;> omega
            have := hfull r hr6
            simpa using this
          have hty' : (game.gtype == "tictactoe") = false := by
            rw [hty]; decide
          have happ : applyGameMove game mv pi = .invalid := by
            simp [applyGameMove, hty', hty, hst, hrow]
          simp [game_move, hg, hu, hidx, ht, happ]
        · have ht : ((pi : Int) != game.currentTurn) = true := by
            simpa using hturn
          simp [game_move, hg, hu, hidx, ht]

/-- Witness for C4: each rejection branch exercised at concrete states —
an unknown game id, an unregistered sender, a non-player sender, an
out-of-turn player, an occupied tic-tac-toe cell, and a full connect4
column. -/
theorem game_move_rejections_witness :
    (game_move initialState 1 "nope" ⟨0, 0⟩ = (initialState, none))
    ∧ (game_move { initialState with
        activeGames := [("g", ⟨"tictactoe", [⟨"alice", 1⟩, ⟨"bob", 2⟩], initGameState "tictactoe", 0⟩)] } 1 "g" ⟨0, 0⟩
        = ({ initialState with
            activeGames := [("g", ⟨"tictactoe", [⟨"alice", 1⟩, ⟨"bob", 2⟩], initGameState "tictactoe", 0⟩)] }, none))
    ∧ (game_move { initialState with
        connectedUsers := [(3, ⟨3, "carol", ""⟩)],
        activeGames := [("g", ⟨"tictactoe", [⟨"alice", 1⟩, ⟨"bob", 2⟩], initGameState "tictactoe", 0⟩)] } 3 "g" ⟨0, 0⟩
        = ({ initialState with
            connectedUsers := [(3, ⟨3, "carol", ""⟩)],
            activeGames := [("g", ⟨"tictactoe", [⟨"alice", 1⟩, ⟨"bob", 2⟩], initGameState "tictactoe", 0⟩)] }, none))
    ∧ (game_move { initialState with
        connectedUsers := [(1, ⟨1, "alice", ""⟩), (2, ⟨2, "bob", ""⟩)],
        activeGames := [("g", ⟨"tictactoe", [⟨"alice", 1⟩, ⟨"bob", 2⟩], initGameState "tictactoe", 0⟩)] } 2 "g" ⟨0, 0⟩
        = ({ initialState with
            connectedUsers := [(1, ⟨1, "alice", ""⟩), (2, ⟨2, "bob", ""⟩)],
            activeGames := [("g", ⟨"tictactoe", [⟨"alice", 1⟩, ⟨"bob", 2⟩], initGameState "tictactoe", 0⟩)] }, none))
    ∧ (game_move { initialState with
        connectedUsers := [(1, ⟨1, "alice", ""⟩), (2, ⟨2, "bob", ""⟩)],
        activeGames := [("g", ⟨"tictactoe", [⟨"alice", 1⟩, ⟨"bob", 2⟩], GState.tictactoe ["O", "", "", "", "", "", "", "", ""], 0⟩)] } 1 "g" ⟨0, 0⟩
        = ({ initialState with
            connectedUsers := [(1, ⟨1, "alice", ""⟩), (2, ⟨2, "bob", ""⟩)],
            activeGames := [("g", ⟨"tictactoe", [⟨"alice", 1⟩, ⟨"bob", 2⟩], GState.tictactoe ["O", "", "", "", "", "", "", "", ""], 0⟩)] }, none))
    ∧ (game_move { initialState with
        connectedUsers := [(1, ⟨1, "alice", ""⟩), (2, ⟨2, "bob", ""⟩)],
        activeGames := [("g", ⟨"connect4", [⟨"alice", 1⟩, ⟨"bob", 2⟩], GState.connect4 (List.replicate 6 (List.replicate 7 "red")), 0⟩)] } 1 "g" ⟨0, 3⟩
        = ({ initialState with
            connectedUsers := [(1, ⟨1, "alice", ""⟩), (2, ⟨2, "bob", ""⟩)],
            activeGames := [("g", ⟨"connect4", [⟨"alice", 1⟩, ⟨"bob", 2⟩], GState.connect4 (List.replicate 6 (List.replicate 7 "red")), 0⟩)] }, none)) := by
  refine ⟨?_, ?_, ?_, ?_, ?_, ?_⟩
  · exact (game_move_rejections initialState 1 "nope" ⟨0, 0⟩).1 (by decide)
  · exact (game_move_rejections _ 1 "g" ⟨0, 0⟩).2.1 (by decide)
  · exact ((game_move_rejections _ 3 "g" ⟨0, 0⟩).2.2
      ⟨"tictactoe", [⟨"alice", 1⟩, ⟨"bob", 2⟩], initGameState "tictactoe", 0⟩
      ⟨3, "carol", ""⟩ (by decide) (by decide)).1 (by decide)
  · exact (((game_move_rejections _ 2 "g" ⟨0, 0⟩).2.2
      ⟨"tictactoe", [⟨"alice", 1⟩, ⟨"bob", 2⟩], initGameState "tictactoe", 0⟩
      ⟨2, "bob", ""⟩ (by decide) (by decide)).2 1 (by decide)).1 (by decide)
  · exact ((((game_move_rejections _ 1 "g" ⟨0, 0⟩).2.2
      ⟨"tictactoe", [⟨"alice", 1⟩, ⟨"bob", 2⟩], GState.tictactoe ["O", "", "", "", "", "", "", "", ""], 0⟩
      ⟨1, "alice", ""⟩ (by decide) (by decide)).2 0 (by decide)).2.1 _ rfl rfl
      (by decide))
  · exact ((((game_move_rejections _ 1 "g" ⟨0, 3⟩).2.2
      ⟨"connect4", [⟨"alice", 1⟩, ⟨"bob", 2⟩], GState.connect4 (List.replicate 6 (List.replicate 7 "red")), 0⟩
      ⟨1, "alice", ""⟩ (by decide) (by decide)).2 0 (by decide)).2.2 _ rfl rfl
      (by decide))

/-- Counterexample to C4 as stated: a tic-tac-toe move on index 9 (outside
0–8) is not rejected — it broadcasts an update and mutates the stored game
(the turn passes to player 1 and the board grows a tenth cell). -/
theorem game_move_accepts_out_of_range_index :
    (game_move { initialState with
        connectedUsers := [(1, ⟨1, "alice", ""⟩), (2, ⟨2, "bob", ""⟩)],
        activeGames := [("g", ⟨"tictactoe", [⟨"alice", 1⟩, ⟨"bob", 2⟩], initGameState "tictactoe", 0⟩)] } 1 "g" ⟨9, 0⟩).2 ≠ none
    ∧ lookupA (game_move { initialState with
        connectedUsers := [(1, ⟨1, "alice", ""⟩), (2, ⟨2, "bob", ""⟩)],
        activeGames := [("g", ⟨"tictactoe", [⟨"alice", 1⟩, ⟨"bob", 2⟩], initGameState "tictactoe", 0⟩)] } 1 "g" ⟨9, 0⟩).1.activeGames "g"
      = some ⟨"tictactoe", [⟨"alice", 1⟩, ⟨"bob", 2⟩],
          GState.tictactoe ["", "", "", "", "", "", "", "", "", "X"], 1⟩ := by
  constructor
  · decide
  · decide

/- ### C5: deletion and the reaction index -/

/-- C5 (amended).  Deleting a message as its author or with the admin secret
removes its id from the unified log and removes its entry from the reaction
index; but a subsequent `reaction` *add* for that now-deleted id RECREATES
an entry in the reaction index, because the reaction handler materialises
`messageReactions[mid][emoji]` without checking that the message still
exists (the claim's "creates no entry" fails; see the counterexample).
Hypotheses: a session is registered at `sid`, log ids and reaction keys are
duplicate-free, the message with id `mid` is in the log, and the requester
is the author or supplies the admin secret. -/
theorem delete_message_purges_but_reaction_recreates
    (s : ServerState) (sid : Nat) (mid : Nat) (password : String)
    (user : UserInfo) (msg : Message)
    (hu : lookupA s.connectedUsers sid = some user)
    (hids : (s.chatHistory.map (·.id)).Nodup)
    (hkR : keysNodup s.messageReactions)
    (hfind : s.chatHistory.find? (fun m => m.id == mid) = some msg)
    (hperm : password = adminPassword ∨ msg.username = user.username) :
    (delete_message s sid mid password).2 = DeleteResult.deleted
    ∧ mid ∉ (delete_message s sid mid password).1.chatHistory.map (·.id)
    ∧ lookupA (delete_message s sid mid password).1.messageReactions mid = none
    ∧ ∀ sid2 user2 emoji, mid ≠ 0 → emoji ≠ "" →
        lookupA (delete_message s sid mid password).1.connectedUsers sid2
          = some user2 →
        lookupA (reaction (delete_message s sid mid password).1 sid2 mid emoji
          "add").messageReactions mid ≠ none := by
  have hpb : (!(password == adminPassword) && msg.username != user.username)
      = false := by
    rcases hperm with h | h <;> simp [h]
  have hd : delete_message s sid mid password
      = ({ s with chatHistory := s.chatHistory.eraseP (fun m => m.id == mid), messageReactions := eraseA s.messageReactions mid },
         DeleteResult.deleted) := by
    simp only [delete_message, hu, hfind, hpb]
    simp
  refine ⟨?_, ?_, ?_, ?_⟩
  · rw [hd]
  · rw [hd]
    intro hmem
    simp only at hmem
    obtain ⟨x, hx, hxid⟩ := List.mem_map.1 hmem
    exact eraseP_id_ne s.chatHistory mid hids x hx hxid
  · rw [hd]
    exact lookupA_eraseA_self s.messageReactions mid hkR
  · intro sid2 user2 emoji hm0 hem hu2
    have hgone : lookupA (delete_message s sid mid password).1.messageReactions mid
        = none := by
      rw [hd]
      exact lookupA_eraseA_self s.messageReactions mid hkR
    have hm0' : (mid == 0) = false := by simpa using hm0
    have hem' : (emoji == "") = false := by simpa using hem
    have hr : (reaction (delete_message s sid mid password).1 sid2 mid emoji
        "add").messageReactions
        = setA (delete_message s sid mid password).1.messageReactions mid
            (setA (setA [] emoji []) emoji [user2.username]) := by
      simp [reaction, hu2, hm0', hem', hgone, lookupA, setA]
    rw [hr, lookupA_setA_self]
    simp

/-- Witness for C5: `alice` deletes her own message 10 (which `bob` had
reacted to), and `bob` then re-reacts to the deleted id. -/
theorem delete_message_purges_but_reaction_recreates_witness :
    (delete_message { initialState with
        connectedUsers := [(1, ⟨1, "alice", ""⟩), (2, ⟨2, "bob", ""⟩)],
        chatHistory := [⟨10, "user", "alice", "salut", "général"⟩],
        messageReactions := [(10, [("👍", ["bob"])])] } 1 10 "").2
      = DeleteResult.deleted
    ∧ lookupA (delete_message { initialState with
        connectedUsers := [(1, ⟨1, "alice", ""⟩), (2, ⟨2, "bob", ""⟩)],
        chatHistory := [⟨10, "user", "alice", "salut", "général"⟩],
        messageReactions := [(10, [("👍", ["bob"])])] } 1 10 "").1.messageReactions 10
      = none
    ∧ lookupA (reaction (delete_message { initialState with
        connectedUsers := [(1, ⟨1, "alice", ""⟩), (2, ⟨2, "bob", ""⟩)],
        chatHistory := [⟨10, "user", "alice", "salut", "général"⟩],
        messageReactions := [(10, [("👍", ["bob"])])] } 1 10 "").1 2 10 "👍"
        "add").messageReactions 10 ≠ none := by
  have h := delete_message_purges_but_reaction_recreates
    { initialState with
        connectedUsers := [(1, ⟨1, "alice", ""⟩), (2, ⟨2, "bob", ""⟩)],
        chatHistory := [⟨10, "user", "alice", "salut", "général"⟩],
        messageReactions := [(10, [("👍", ["bob"])])] }
    1 10 "" ⟨1, "alice", ""⟩ ⟨10, "user", "alice", "salut", "général"⟩
    (by decide) (by decide) (by decide) (by decide) (Or.inr rfl)
  exact ⟨h.1, h.2.2.1, h.2.2.2 2 ⟨2, "bob", ""⟩ "👍" (by decide) (by decide)
    (by decide)⟩

/-- Counterexample to C5 as stated: after the deletion of message 10, a
reaction to the deleted id does create a reaction-index entry. -/
theorem reacting_to_deleted_message_creates_entry :
    lookupA (reaction (delete_message { initialState with
        connectedUsers := [(1, ⟨1, "alice", ""⟩), (2, ⟨2, "bob", ""⟩)],
        chatHistory := [⟨10, "user", "alice", "salut", "général"⟩],
        messageReactions := [(10, [("👍", ["bob"])])] } 1 10 "").1 2 10 "👍"
        "add").messageReactions 10 = some [("👍", ["bob"])] := by
  decide

/- ### C6: ban gate at join -/

/-- C6 (confirmed).  A `join` under a name with a ban entry is rejected
while the ban is permanent or its expiry has not passed (state untouched,
session not created); once a non-permanent ban's expiry has passed, the
identical `join` call succeeds — the expired entry is deleted lazily by the
read path — provided the usual join conditions hold (non-empty name, no
private-mode mismatch, name free). -/
theorem ban_gate_at_join (s : ServerState) (sid : Nat)
    (username avatar accessCode : String) (now : Nat) (ban : BanEntry)
    (h0 : (jsTrim username).length ≠ 0)
    (hban : lookupA s.bannedUsers (toLowerStr (jsTake (jsTrim username) 20))
      = some ban) :
    ((ban.permanent = true ∨ ¬ (ban.expiresAt.getD 0 < now)) →
      user_join s sid username avatar accessCode now = (s, .bannedRejected))
    ∧ (ban.permanent = false → ban.expiresAt.getD 0 < now →
        keysNodup s.bannedUsers →
        (s.config.isPrivate && s.config.accessCode != ""
          && accessCode != s.config.accessCode) = false →
        s.connectedUsers.find? (fun p =>
          toLowerStr p.2.username == toLowerStr (jsTake (jsTrim username) 20))
          = none →
        (user_join s sid username avatar accessCode now).2 = JoinResult.joined
        ∧ lookupA (user_join s sid username avatar accessCode now).1.bannedUsers
            (toLowerStr (jsTake (jsTrim username) 20)) = none) := by
  constructor
  · intro hactive
    have hexp : (!ban.permanent && decide (ban.expiresAt.getD 0 < now)) = false := by
      rcases hactive with h | h <;> simp [h]
    simp [user_join, h0, hban, hexp]
  · intro hperm hpast hkB hpriv hfree
    have hexp : (!ban.permanent && decide (ban.expiresAt.getD 0 < now)) = true := by
      simp [hperm, hpast]
    have he : user_join s sid username avatar accessCode now
        = joinChecks { s with bannedUsers := eraseA s.bannedUsers (toLowerStr (jsTake (jsTrim username) 20)) } sid (jsTake (jsTrim username) 20) avatar accessCode := by
      simp [user_join, h0, hban, hexp]
    rw [he]
    have hjc : joinChecks { s with bannedUsers := eraseA s.bannedUsers (toLowerStr (jsTake (jsTrim username) 20)) } sid (jsTake (jsTrim username) 20) avatar accessCode
        = (let s1 := { { s with bannedUsers := eraseA s.bannedUsers (toLowerStr (jsTake (jsTrim username) 20)) } with connectedUsers := setA s.connectedUsers sid ⟨sid, jsTake (jsTrim username) 20, avatar⟩ }
           let joinMsg := mkSystemMessage s1.msgCtr (jsTake (jsTrim username) 20 ++ " a rejoint le chat")
           let hr := addToHistory s1.chatHistory s1.messageReactions joinMsg
           ({ s1 with chatHistory := hr.1, messageReactions := hr.2, msgCtr := s1.msgCtr + 1 }, .joined)) := by
      have hfree' : (({ s with bannedUsers := eraseA s.bannedUsers (toLowerStr (jsTake (jsTrim username) 20)) } : ServerState).connectedUsers.find? (fun p =>
          toLowerStr p.2.username == toLowerStr (jsTake (jsTrim username) 20))).isSome = false := by
        simp only
        rw [hfree]
        rfl
      simp [joinChecks, hpriv, hfree']
    rw [hjc]
    refine ⟨rfl, ?_⟩
    simp only
    exact lookupA_eraseA_self s.bannedUsers _ hkB

/-- Witness for C6: `mallory` is banned for one minute at time 0; a join at
`now = 1000` (within the minute) is rejected, and the identical join at
`now = 100000` (after expiry) succeeds and drops the entry. -/
theorem ban_gate_at_join_witness :
    user_join { initialState with
        bannedUsers := [("mallory", ⟨"mallory", 0, some 60000, false⟩)] }
        1 "mallory" "" "" 1000
      = ({ initialState with
          bannedUsers := [("mallory", ⟨"mallory", 0, some 60000, false⟩)] },
         .bannedRejected)
    ∧ (user_join { initialState with
        bannedUsers := [("mallory", ⟨"mallory", 0, some 60000, false⟩)] }
        1 "mallory" "" "" 100000).2 = JoinResult.joined
    ∧ lookupA (user_join { initialState with
        bannedUsers := [("mallory", ⟨"mallory", 0, some 60000, false⟩)] }
        1 "mallory" "" "" 100000).1.bannedUsers "mallory" = none := by
  have h1 := (ban_gate_at_join { initialState with
      bannedUsers := [("mallory", ⟨"mallory", 0, some 60000, false⟩)] }
      1 "mallory" "" "" 1000 ⟨"mallory", 0, some 60000, false⟩
      (by decide) (by decide)).1 (by decide)
  have h2 := (ban_gate_at_join { initialState with
      bannedUsers := [("mallory", ⟨"mallory", 0, some 60000, false⟩)] }
      1 "mallory" "" "" 100000 ⟨"mallory", 0, some 60000, false⟩
      (by decide) (by decide)).2 (by decide) (by decide) (by decide) (by decide)
      (by decide)
  exact ⟨h1, h2.1, h2.2⟩

/- ### C7: slow mode -/

/-- C7 (confirmed).  With slow mode at a positive interval and a non-admin,
non-muted sender: a message whose elapsed time (ms) since the sender's last
accepted message is below the interval is rejected — the state (including
`lastMessageTime`) is unchanged and the remaining-time hint equals the
interval minus the elapsed time rounded up to a whole second, i.e. the
unique `rem` with `1000·(rem−1) < interval·1000 − elapsed ≤ 1000·rem` —
while a message at or past the interval records `now` as the sender's new
last-accepted time. -/
theorem slow_mode_gate (s : ServerState) (sid : Nat) (p : MsgPayload)
    (now : Nat) (user : UserInfo)
    (hu : lookupA s.connectedUsers sid = some user)
    (hpos : 0 < s.config.slowMode)
    (hnadmin : s.adminUsersList.contains user.username = false)
    (hmute : s.config.globalMute = false) :
    (((now : Int) - ((lookupA s.lastMessageTime sid).getD 0 : Int)
        < (s.config.slowMode : Int) * 1000) →
      ∃ rem, send_message s sid p now = (s, .slowModeActive rem)
        ∧ 1000 * ((rem : Int) - 1)
            < (s.config.slowMode : Int) * 1000
              - ((now : Int) - ((lookupA s.lastMessageTime sid).getD 0 : Int))
        ∧ (s.config.slowMode : Int) * 1000
              - ((now : Int) - ((lookupA s.lastMessageTime sid).getD 0 : Int))
            ≤ 1000 * (rem : Int))
    ∧ ((s.config.slowMode : Int) * 1000
          ≤ (now : Int) - ((lookupA s.lastMessageTime sid).getD 0 : Int) →
        lookupA (send_message s sid p now).1.lastMessageTime sid = some now) := by
  have hmem : user.username ∉ s.adminUsersList := by
    simpa using hnadmin
  constructor
  · intro hlt
    refine ⟨(((s.config.slowMode : Int) * 1000
        - ((now : Int) - ((lookupA s.lastMessageTime sid).getD 0 : Int))).toNat
        + 999) / 1000, ?_, ?_, ?_⟩
    · simp [send_message, hu, hmute, hpos, hmem, hlt]
    · omega
    · omega
  · intro hge
    have hnlt : ¬ ((now : Int) - ((lookupA s.lastMessageTime sid).getD 0 : Int)
        < (s.config.slowMode : Int) * 1000) := by omega
    by_cases hch : (p.channel.getD "général") ∈ AVAILABLE_CHANNELS
    · by_cases hemp : (jsTake (jsTrim (p.content.getD "")) 500 = ""
          ∧ p.attachment = none)
      · simp [send_message, hu, hmute, hpos, hmem, hnlt, hch, hemp,
          lookupA_setA_self]
      · simp [send_message, hu, hmute, hpos, hmem, hnlt, hch, hemp,
          lookupA_setA_self]
    · simp [send_message, hu, hmute, hpos, hmem, hnlt, hch, lookupA_setA_self]

/-- Witness for C7: slow mode 10 s, `alice` last accepted at 5000 ms; a
message at 9000 ms is rejected with a 7-second hint (⌈10 − 4⌉ = 6? no:
⌈(10000−4000)/1000⌉ = 6), and a message at 20000 ms records the new time. -/
theorem slow_mode_gate_witness :
    (∃ rem, send_message { initialState with
        connectedUsers := [(1, ⟨1, "alice", ""⟩)],
        lastMessageTime := [(1, 5000)],
        config := { isPrivate := false, accessCode := "", slowMode := 10,
                    globalMute := false } } 1 ⟨none, none, some "hi", none⟩ 9000
      = ({ initialState with
          connectedUsers := [(1, ⟨1, "alice", ""⟩)],
          lastMessageTime := [(1, 5000)],
          config := { isPrivate := false, accessCode := "", slowMode := 10,
                      globalMute := false } }, .slowModeActive rem))
    ∧ lookupA (send_message { initialState with
        connectedUsers := [(1, ⟨1, "alice", ""⟩)],
        lastMessageTime := [(1, 5000)],
        config := { isPrivate := false, accessCode := "", slowMode := 10,
                    globalMute := false } } 1 ⟨none, none, some "hi", none⟩
        20000).1.lastMessageTime 1 = some 20000 := by
  constructor
  · obtain ⟨rem, he, _, _⟩ := (slow_mode_gate { initialState with
        connectedUsers := [(1, ⟨1, "alice", ""⟩)],
        lastMessageTime := [(1, 5000)],
        config := { isPrivate := false, accessCode := "", slowMode := 10,
                    globalMute := false } } 1 ⟨none, none, some "hi", none⟩ 9000
        ⟨1, "alice", ""⟩ (by decide) (by decide) (by decide) (by decide)).1
      (by decide)
    exact ⟨rem, he⟩
  · exact (slow_mode_gate { initialState with
        connectedUsers := [(1, ⟨1, "alice", ""⟩)],
        lastMessageTime := [(1, 5000)],
        config := { isPrivate := false, accessCode := "", slowMode := 10,
                    globalMute := false } } 1 ⟨none, none, some "hi", none⟩ 20000
        ⟨1, "alice", ""⟩ (by decide) (by decide) (by decide) (by decide)).2
      (by decide)

/- ### C8: clear_history -/

/-- C8 (amended).  The authenticated `clear_history` admin action truncates
the unified legacy log and empties the reaction index, but it does NOT
touch the per-channel logs: `channelHistories` is returned unchanged (see
the counterexample).  A wrong secret changes nothing. -/
theorem clear_history_scope (s : ServerState) (password : String) :
    (password = adminPassword →
      (admin_clear_history s password).2 = true
      ∧ (admin_clear_history s password).1.chatHistory = []
      ∧ (admin_clear_history s password).1.messageReactions = []
      ∧ (admin_clear_history s password).1.channelHistories = s.channelHistories)
    ∧ (password ≠ adminPassword → admin_clear_history s password = (s, false)) := by
  constructor
  · intro h
    have hb : (password != adminPassword) = false := by simp [h]
    refine ⟨?_, ?_, ?_, ?_⟩ <;> simp [admin_clear_history, hb]
  · intro h
    have hb : (password != adminPassword) = true := by simp [h]
    simp [admin_clear_history, hb]

/-- Witness for C8 at a concrete state with both logs and reactions
populated. -/
theorem clear_history_scope_witness :
    (admin_clear_history { initialState with
        chatHistory := [⟨1, "user", "alice", "salut", "jeux"⟩],
        channelHistories := [("jeux", [⟨1, "user", "alice", "salut", "jeux"⟩])],
        messageReactions := [(1, [("👍", ["bob"])])] } adminPassword).1.chatHistory
      = []
    ∧ (admin_clear_history { initialState with
        chatHistory := [⟨1, "user", "alice", "salut", "jeux"⟩],
        channelHistories := [("jeux", [⟨1, "user", "alice", "salut", "jeux"⟩])],
        messageReactions := [(1, [("👍", ["bob"])])] } "wrong")
      = ({ initialState with
          chatHistory := [⟨1, "user", "alice", "salut", "jeux"⟩],
          channelHistories := [("jeux", [⟨1, "user", "alice", "salut", "jeux"⟩])],
          messageReactions := [(1, [("👍", ["bob"])])] }, false) := by
  constructor
  · exact ((clear_history_scope { initialState with
      chatHistory := [⟨1, "user", "alice", "salut", "jeux"⟩],
      channelHistories := [("jeux", [⟨1, "user", "alice", "salut", "jeux"⟩])],
      messageReactions := [(1, [("👍", ["bob"])])] } adminPassword).1 rfl).2.1
  · exact (clear_history_scope { initialState with
      chatHistory := [⟨1, "user", "alice", "salut", "jeux"⟩],
      channelHistories := [("jeux", [⟨1, "user", "alice", "salut", "jeux"⟩])],
      messageReactions := [(1, [("👍", ["bob"])])] } "wrong").2 (by decide)

/-- Counterexample to C8 as stated: after an authenticated `clear_history`,
the `jeux` channel log still holds its message — per-channel logs are not
truncated. -/
theorem clear_history_leaves_channel_logs :
    (admin_clear_history { initialState with
        chatHistory := [⟨1, "user", "alice", "salut", "jeux"⟩],
        channelHistories := [("jeux", [⟨1, "user", "alice", "salut", "jeux"⟩])],
        messageReactions := [(1, [("👍", ["bob"])])] } adminPassword).2 = true
    ∧ lookupA (admin_clear_history { initialState with
        chatHistory := [⟨1, "user", "alice", "salut", "jeux"⟩],
        channelHistories := [("jeux", [⟨1, "user", "alice", "salut", "jeux"⟩])],
        messageReactions := [(1, [("👍", ["bob"])])] }
        adminPassword).1.channelHistories "jeux"
      = some [⟨1, "user", "alice", "salut", "jeux"⟩] := by
  constructor
  · decide
  · decide

/- ### C9: vote_poll has no handler-boundary catch -/

/-- C9 (amended).  Several handlers (`user_join`, `send_message`,
`change_username`, `update_profile`, `gemini_response`) do wrap their
bodies in try/catch, but `vote_poll` does not: a `vote_poll` whose option
index is outside the poll's option list (from a registered user who has
not yet voted on an existing poll) throws
(`poll.options[optionIndex].votes++` on `undefined`), and the exception
escapes the handler — nothing is surfaced to the originator — reaching the
process-level `uncaughtException` hook, which initiates a shutdown
(src/server.js:2518-2524).  An in-range index is processed normally. -/
theorem vote_poll_uncaught_throw (s : ServerState) (sid : Nat) (pollId : String)
    (idx : Nat) (user : UserInfo) (poll : Poll)
    (hu : lookupA s.connectedUsers sid = some user)
    (hp : lookupA s.polls pollId = some poll)
    (hnv : lookupA ((lookupA s.pollVotes pollId).getD []) user.username = none) :
    (poll.options.length ≤ idx →
      ∃ e, vote_poll s sid pollId idx = Except.error e)
    ∧ (idx < poll.options.length →
      ∃ s', vote_poll s sid pollId idx = Except.ok (s', VoteOutcome.voted)) := by
  constructor
  · intro hlen
    have hget : poll.options[idx]? = none := List.getElem?_eq_none hlen
    refine ⟨"TypeError: cannot read votes of undefined", ?_⟩
    simp [vote_poll, hu, hp, hnv, hget]
  · intro hlen
    have hget : poll.options[idx]? = some poll.options[idx] :=
      List.getElem?_eq_getElem hlen
    refine ⟨{ s with polls := setA s.polls pollId { poll with options := poll.options.set idx (poll.options[idx].1, poll.options[idx].2 + 1) }, pollVotes := setA s.pollVotes pollId (setA ((lookupA s.pollVotes pollId).getD []) user.username idx) }, ?_⟩
    simp [vote_poll, hu, hp, hnv, hget]

/-- Witness for C9: a two-option poll, voted with index 5 (throws) and with
index 1 (ok). -/
theorem vote_poll_uncaught_throw_witness :
    (∃ e, vote_poll { initialState with
        connectedUsers := [(1, ⟨1, "alice", ""⟩)],
        polls := [("poll_1", ⟨"q", [("a", 0), ("b", 0)], "général", "alice"⟩)],
        pollVotes := [("poll_1", [])] } 1 "poll_1" 5 = Except.error e)
    ∧ (∃ s', vote_poll { initialState with
        connectedUsers := [(1, ⟨1, "alice", ""⟩)],
        polls := [("poll_1", ⟨"q", [("a", 0), ("b", 0)], "général", "alice"⟩)],
        pollVotes := [("poll_1", [])] } 1 "poll_1" 1
      = Except.ok (s', VoteOutcome.voted)) := by
  constructor
  · exact (vote_poll_uncaught_throw { initialState with
      connectedUsers := [(1, ⟨1, "alice", ""⟩)],
      polls := [("poll_1", ⟨"q", [("a", 0), ("b", 0)], "général", "alice"⟩)],
      pollVotes := [("poll_1", [])] } 1 "poll_1" 5 ⟨1, "alice", ""⟩
      ⟨"q", [("a", 0), ("b", 0)], "général", "alice"⟩
      (by decide) (by decide) (by decide)).1 (by decide)
  · exact (vote_poll_uncaught_throw { initialState with
      connectedUsers := [(1, ⟨1, "alice", ""⟩)],
      polls := [("poll_1", ⟨"q", [("a", 0), ("b", 0)], "général", "alice"⟩)],
      pollVotes := [("poll_1", [])] } 1 "poll_1" 1 ⟨1, "alice", ""⟩
      ⟨"q", [("a", 0), ("b", 0)], "général", "alice"⟩
      (by decide) (by decide) (by decide)).2 (by decide)

/-- Counterexample to C9 as stated: the malformed vote is not caught at the
handler boundary and not surfaced to the originator as a failure reply —
the handler's evaluation IS the escaping exception. -/
theorem vote_poll_out_of_range_escapes :
    vote_poll { initialState with
        connectedUsers := [(1, ⟨1, "alice", ""⟩)],
        polls := [("poll_1", ⟨"q", [("a", 0), ("b", 0)], "général", "alice"⟩)],
        pollVotes := [("poll_1", [])] } 1 "poll_1" 5
      = Except.error "TypeError: cannot read votes of undefined" := by
  rfl

/- ### C10: slow mode is keyed by the connection handle -/

/-- C10 (confirmed).  `lastMessageTime` is keyed by the socket id, not the
display name, so for any state whose map has no entry for a (fresh)
connection handle — regardless of what entries exist for other handles
under any name — the first message on that handle is never rejected by the
slow-mode gate (assuming the wall clock is at least `slowMode` seconds,
which holds for epoch-milliseconds timestamps). -/
theorem fresh_connection_not_slow_mode_limited (s : ServerState) (sid : Nat)
    (p : MsgPayload) (now : Nat)
    (hfresh : lookupA s.lastMessageTime sid = none)
    (hnow : s.config.slowMode * 1000 ≤ now) :
    ∀ rem, (send_message s sid p now).2 ≠ SendResult.slowModeActive rem := by
  intro rem
  cases hu : lookupA s.connectedUsers sid with
  | none => simp [send_message, hu]
  | some user =>
    have hnlt : ¬ ((now : Int) - ((lookupA s.lastMessageTime sid).getD 0 : Int)
        < (s.config.slowMode : Int) * 1000) := by
      rw [hfresh]
      simp only [Option.getD_none]
      push_cast
      omega
    simp only [send_message, hu]
    split
    · simp
    · cases hc : (decide (s.config.slowMode > 0)
          && !(s.adminUsersList.contains user.username)) with
      | false =>
        simp only [hc, Bool.false_eq_true, if_false]
        repeat' split
        all_goals simp
      | true =>
        simp only [hc, if_true]
        repeat' split
        all_goals simp

/-- Witness for C10: `bob` sent a message one millisecond ago on old socket
1, then reconnected as socket 2 (no `lastMessageTime` entry); with slow
mode at 10 s his first message on the new handle is not slow-mode
rejected. -/
theorem fresh_connection_not_slow_mode_limited_witness :
    (send_message { initialState with
        connectedUsers := [(2, ⟨2, "bob", ""⟩)],
        lastMessageTime := [(1, 999999)],
        config := { isPrivate := false, accessCode := "", slowMode := 10,
                    globalMute := false } } 2 ⟨none, none, some "hi", none⟩
        1000000).2 ≠ SendResult.slowModeActive 10 := by
  exact fresh_connection_not_slow_mode_limited { initialState with
      connectedUsers := [(2, ⟨2, "bob", ""⟩)],
      lastMessageTime := [(1, 999999)],
      config := { isPrivate := false, accessCode := "", slowMode := 10,
                  globalMute := false } } 2 ⟨none, none, some "hi", none⟩
    1000000 (by decide) (by decide) 10

end ChatServer
